import Mathlib

/-!
Shallow embedding of the social-graph / feed / notification core of the
`bailanysta` repository (Go services `SocialService`, `NotificationService`,
`PostsService`, and the HTTP notifications handler).

Identifiers (UUIDs in the source) are modelled as `Nat`; timestamps as `Nat`;
the database tables as lists inside a `State` record.  SQL queries are
translated to list operations; `ORDER BY created_at DESC` is modelled with
`List.insertionSort` on the relation "later or equal creation time first".
Fallible storage inserts during notification creation are modelled by an
explicit failure oracle `fails : CreateNotificationRequest → Bool`: the pure
path uses the oracle that never fails.
-/

namespace Bailanysta

/-- Notification types, from the `NotificationType` constants in
`services/notifications.go`. -/
inductive NotificationType where
  | like
  | comment
  | follow
  | mention
  | new_post
deriving DecidableEq, Repr

/-- A payload value: `uuid.UUID` values (which round-trip through JSON as
their string form and parse back) are modelled as `.idv`, other strings
(text excerpts, or a malformed id string on which `uuid.Parse` would fail)
as `.strv`. -/
inductive PVal where
  | idv (n : Nat)
  | strv (s : String)
deriving DecidableEq, Repr

/-- Public profile fields of a user, mirroring `UserResponse`
(`id, username, email, bio, avatar_url`). -/
structure User where
  id : Nat
  username : String
  email : String
  bio : String
  avatar_url : Option String
deriving DecidableEq, Repr

/-- A row of the `posts` table (fields read by this core:
`id, author_id, text, course_id, module_id, created_at, updated_at`). -/
structure Post where
  id : Nat
  author_id : Nat
  text : String
  course_id : Option Nat
  module_id : Option Nat
  created_at : Nat
  updated_at : Nat
deriving DecidableEq, Repr

/-- A row of the `comments` table (fields read by this core: `id, post_id`). -/
structure CommentRow where
  id : Nat
  post_id : Nat
deriving DecidableEq, Repr

/-- A stored notification, mirroring the Go `Notification` struct:
the persisted columns plus the display-only `Actor`/`Post` fields filled
in by enrichment (`post` carries the post together with its joined author). -/
structure Notif where
  id : Nat
  user_id : Nat
  ntype : NotificationType
  entity_id : Option Nat
  payload : List (String × PVal)
  read_at : Option Nat
  created_at : Nat
  actor : Option User := none
  post : Option (Post × User) := none
deriving DecidableEq, Repr

/-- Mirrors `CreateNotificationRequest`. -/
structure CreateNotificationRequest where
  user_id : Nat
  ntype : NotificationType
  entity_id : Option Nat
  payload : List (String × PVal)
deriving DecidableEq, Repr

/-- The database state: `users`, `follows` (follower, followee pairs),
`posts`, `likes` (user, post pairs), `comments`, `notifications`, plus the
clock (`now`) and the id sequences. -/
structure State where
  users : List User
  follows : List (Nat × Nat)
  posts : List Post
  likes : List (Nat × Nat)
  comments : List CommentRow
  notifications : List Notif
  now : Nat
  nextNotifId : Nat
  nextPostId : Nat
deriving DecidableEq, Repr

/-- Failure oracle for notification-row inserts.  `noFail` is the oracle of
a healthy storage layer. -/
def noFail : CreateNotificationRequest → Bool := fun _ => false

/-- `truncateText` from `services/notifications.go`: keep the text if it is
at most `maxLength` long, otherwise cut it and append `"..."`. -/
def truncateText (text : String) (maxLength : Nat) : String :=
  if text.length ≤ maxLength then text
  else (text.take maxLength) ++ "..."

/-- Lookup of a payload key, modelling `notification.Payload[key]`. -/
def payloadGet (payload : List (String × PVal)) (key : String) : Option PVal :=
  (payload.find? (fun kv => kv.1 = key)).map (·.2)

/-- `SELECT ... FROM users WHERE id = $1` (first matching row). -/
def findUser (st : State) (uid : Nat) : Option User :=
  st.users.find? (fun u => u.id = uid)

/-- `SELECT ... FROM posts WHERE id = $1` (first matching row). -/
def findPost (st : State) (pid : Nat) : Option Post :=
  st.posts.find? (fun p => p.id = pid)

/-- `SELECT ... FROM posts p JOIN users u ON p.author_id = u.id WHERE p.id = $1`:
the post together with its author; no row when either is missing. -/
def findPostWithAuthor (st : State) (pid : Nat) : Option (Post × User) :=
  match findPost st pid with
  | none => none
  | some p =>
    match findUser st p.author_id with
    | none => none
    | some u => some (p, u)

/-- `CreateNotification`: inserts a row with the next id, `read_at = NULL`
and `created_at = now()`, returning the stored record. -/
def CreateNotification (st : State) (req : CreateNotificationRequest) :
    State × Notif :=
  let n : Notif :=
    { id := st.nextNotifId
      user_id := req.user_id
      ntype := req.ntype
      entity_id := req.entity_id
      payload := req.payload
      read_at := none
      created_at := st.now }
  ({ st with notifications := st.notifications ++ [n]
             nextNotifId := st.nextNotifId + 1 }, n)

/-- `CreateNotification` through the storage-failure oracle: a failing
insert returns the error of the Go wrapper and leaves the state unchanged. -/
def createNotificationF (fails : CreateNotificationRequest → Bool)
    (st : State) (req : CreateNotificationRequest) :
    Except String (State × Notif) :=
  if fails req then .error "failed to create notification"
  else .ok (CreateNotification st req)

/-- `NotifyLike(likerID, postID)`: resolve the post's author and text; error
when the post is missing; no-op when the liker is the author; otherwise
create a `like` notification for the author. -/
def NotifyLike (fails : CreateNotificationRequest → Bool) (st : State)
    (likerID postID : Nat) : Except String State :=
  match findPost st postID with
  | none => .error "failed to get post info"
  | some p =>
    if likerID = p.author_id then .ok st
    else
      let req : CreateNotificationRequest :=
        { user_id := p.author_id
          ntype := .like
          entity_id := some postID
          payload := [("liker_id", .idv likerID),
                      ("post_id", .idv postID),
                      ("post_text", .strv (truncateText p.text 100))] }
      match createNotificationF fails st req with
      | .error e => .error e
      | .ok (st', _) => .ok st'

/-- `NotifyComment(commenterID, postID, commentText)`: same shape as
`NotifyLike`, with the comment excerpt added to the payload. -/
def NotifyComment (fails : CreateNotificationRequest → Bool) (st : State)
    (commenterID postID : Nat) (commentText : String) : Except String State :=
  match findPost st postID with
  | none => .error "failed to get post info"
  | some p =>
    if commenterID = p.author_id then .ok st
    else
      let req : CreateNotificationRequest :=
        { user_id := p.author_id
          ntype := .comment
          entity_id := some postID
          payload := [("commenter_id", .idv commenterID),
                      ("post_id", .idv postID),
                      ("comment_text", .strv (truncateText commentText 100)),
                      ("post_text", .strv (truncateText p.text 100))] }
      match createNotificationF fails st req with
      | .error e => .error e
      | .ok (st', _) => .ok st'

/-- `NotifyFollow(followerID, followeeID)`: a `follow` notification for the
followee; an insert failure propagates to the caller. -/
def NotifyFollow (fails : CreateNotificationRequest → Bool) (st : State)
    (followerID followeeID : Nat) : Except String State :=
  let req : CreateNotificationRequest :=
    { user_id := followeeID
      ntype := .follow
      entity_id := some followerID
      payload := [("follower_id", .idv followerID)] }
  match createNotificationF fails st req with
  | .error e => .error e
  | .ok (st', _) => .ok st'

/-- The `new_post` fan-out request built for one follower inside
`NotifyNewPost`'s loop. -/
def newPostReq (authorID postID : Nat) (postText : String)
    (followerID : Nat) : CreateNotificationRequest :=
  { user_id := followerID
    ntype := .new_post
    entity_id := some postID
    payload := [("author_id", .idv authorID),
                ("post_id", .idv postID),
                ("post_text", .strv (truncateText postText 100))] }

/-- The body of `NotifyNewPost`'s `for` loop over the follower list: a
failing insert is logged and skipped, the loop continues. -/
def fanoutLoop (fails : CreateNotificationRequest → Bool)
    (authorID postID : Nat) (postText : String) :
    State → List Nat → State
  | st, [] => st
  | st, f :: rest =>
    match createNotificationF fails st (newPostReq authorID postID postText f) with
    | .ok (st', _) => fanoutLoop fails authorID postID postText st' rest
    | .error _ => fanoutLoop fails authorID postID postText st rest

/-- `SELECT follower_id FROM follows WHERE followee_id = $1`, in table order. -/
def followersOf (st : State) (authorID : Nat) : List Nat :=
  (st.follows.filter (fun e => e.2 = authorID)).map (·.1)

/-- `NotifyNewPost(authorID, postID, postText)`: enumerate the author's
followers and create one `new_post` notification per follower, skipping
failed inserts; always returns success. -/
def NotifyNewPost (fails : CreateNotificationRequest → Bool) (st : State)
    (authorID postID : Nat) (postText : String) : Except String State :=
  .ok (fanoutLoop fails authorID postID postText st (followersOf st authorID))

/-- `SELECT COUNT(*) FROM follows WHERE follower_id = $1 AND followee_id = $2`. -/
def countFollows (st : State) (followerID followeeID : Nat) : Nat :=
  (st.follows.filter (fun e => e.1 = followerID ∧ e.2 = followeeID)).length

/-- `SocialService.FollowUser`: reject self-follow, then reject when the
edge already exists, then insert the edge and fire a best-effort `follow`
notification (its failure is logged and ignored). -/
def FollowUser (fails : CreateNotificationRequest → Bool) (st : State)
    (followerID followeeID : Nat) : State × Except String Unit :=
  if followerID = followeeID then (st, .error "cannot follow yourself")
  else if countFollows st followerID followeeID > 0 then
    (st, .error "already following this user")
  else
    let st1 := { st with follows := st.follows ++ [(followerID, followeeID)] }
    match NotifyFollow fails st1 followerID followeeID with
    | .ok st2 => (st2, .ok ())
    | .error _ => (st1, .ok ())

/-- The `CreateFollow` query of `db/queries/follows.sql`:
`INSERT ... ON CONFLICT (follower_id, followee_id) DO NOTHING`. -/
def createFollowQuery (follows : List (Nat × Nat))
    (followerID followeeID : Nat) : List (Nat × Nat) :=
  if (followerID, followeeID) ∈ follows then follows
  else follows ++ [(followerID, followeeID)]

/-- `PostsService.LikePost`: insert-or-ignore the like row, then invoke
`NotifyLike` unconditionally, logging and ignoring its failure. -/
def LikePost (fails : CreateNotificationRequest → Bool) (st : State)
    (userID postID : Nat) : State × Except String Unit :=
  let st1 :=
    if (userID, postID) ∈ st.likes then st
    else { st with likes := st.likes ++ [(userID, postID)] }
  match NotifyLike fails st1 userID postID with
  | .ok st2 => (st2, .ok ())
  | .error _ => (st1, .ok ())

/-- `PostsService.CreatePost` (post-insert portion; hashtag extraction,
which touches tables this core never reads, is omitted): commit the post
row, then run the `NotifyNewPost` fan-out, logging and ignoring its error;
the post creation itself is reported as successful. -/
def CreatePost (fails : CreateNotificationRequest → Bool) (st : State)
    (userID : Nat) (text : String) : State × Except String Post :=
  let post : Post :=
    { id := st.nextPostId
      author_id := userID
      text := text
      course_id := none
      module_id := none
      created_at := st.now
      updated_at := st.now }
  let st1 := { st with posts := st.posts ++ [post]
                       nextPostId := st.nextPostId + 1 }
  match NotifyNewPost fails st1 userID post.id post.text with
  | .ok st2 => (st2, .ok post)
  | .error _ => (st1, .ok post)

/-- `MarkAsRead(notificationID, userID)`:
`UPDATE notifications SET read_at = now() WHERE id = $1 AND user_id = $2 AND
read_at IS NULL`; error when zero rows were affected. -/
def MarkAsRead (st : State) (notificationID userID : Nat) :
    State × Except String Unit :=
  let rowMatch := fun (n : Notif) =>
    n.id = notificationID ∧ n.user_id = userID ∧ n.read_at = none
  let affected := (st.notifications.filter (fun n => decide (rowMatch n))).length
  let st' := { st with
    notifications := st.notifications.map (fun n =>
      if rowMatch n then { n with read_at := some st.now } else n) }
  if affected = 0 then (st, .error "notification not found or already read")
  else (st', .ok ())

/-- `ORDER BY created_at DESC` on posts (later creation time first). -/
def postLater (a b : Post) : Prop := b.created_at ≤ a.created_at

instance : DecidableRel postLater := fun a b => Nat.decLe b.created_at a.created_at

instance : IsTotal Post postLater := ⟨fun a b => Nat.le_total b.created_at a.created_at⟩

instance : IsTrans Post postLater := ⟨fun _ _ _ h1 h2 => Nat.le_trans h2 h1⟩

/-- `ORDER BY created_at DESC` on notifications. -/
def notifLater (a b : Notif) : Prop := b.created_at ≤ a.created_at

instance : DecidableRel notifLater := fun a b => Nat.decLe b.created_at a.created_at

instance : IsTotal Notif notifLater := ⟨fun a b => Nat.le_total b.created_at a.created_at⟩

instance : IsTrans Notif notifLater := ⟨fun _ _ _ h1 h2 => Nat.le_trans h2 h1⟩

/-- The `WHERE p.author_id IN (SELECT followee_id FROM follows WHERE
follower_id = $1 UNION SELECT $1)` membership test of `GetFeed`. -/
def isVisibleAuthor (st : State) (userID authorID : Nat) : Prop :=
  authorID = userID ∨ (userID, authorID) ∈ st.follows

instance (st : State) (userID authorID : Nat) :
    Decidable (isVisibleAuthor st userID authorID) := by
  unfold isVisibleAuthor; infer_instance

/-- `COUNT(DISTINCT l.user_id)` over the likes of one post. -/
def distinctLikerCount (st : State) (postID : Nat) : Nat :=
  ((st.likes.filter (fun l => l.2 = postID)).map (·.1)).dedup.length

/-- `COUNT(DISTINCT c.id)` over the comments of one post. -/
def distinctCommentCount (st : State) (postID : Nat) : Nat :=
  ((st.comments.filter (fun c => c.post_id = postID)).map (·.id)).dedup.length

/-- One row of `GetFeed`'s projection (`FeedPost`). -/
structure FeedPost where
  id : Nat
  author_id : Nat
  text : String
  course_id : Option Nat
  module_id : Option Nat
  created_at : Nat
  updated_at : Nat
  like_count : Nat
  comment_count : Nat
  author : User
  is_liked : Bool
deriving DecidableEq, Repr

/-- The `GetFeed` row built for one post: aggregate counts and the
viewer-specific `is_liked` flag, computed in the same read as the post. -/
def mkFeedPost (st : State) (userID : Nat) (p : Post) (author : User) : FeedPost :=
  { id := p.id
    author_id := p.author_id
    text := p.text
    course_id := p.course_id
    module_id := p.module_id
    created_at := p.created_at
    updated_at := p.updated_at
    like_count := distinctLikerCount st p.id
    comment_count := distinctCommentCount st p.id
    author := author
    is_liked := (userID, p.id) ∈ st.likes }

/-- `SocialService.GetFeed(userID, limit, offset)`: posts of the visible
authors (self plus followees) joined with their author row, ordered by
creation time descending, paged with `LIMIT`/`OFFSET`, each annotated with
like count, comment count and `is_liked`. -/
def GetFeed (st : State) (userID limit offset : Nat) : List FeedPost :=
  let rows := st.posts.filter (fun p =>
    decide (isVisibleAuthor st userID p.author_id) && (findUser st p.author_id).isSome)
  let sorted := rows.insertionSort postLater
  ((sorted.drop offset).take limit).map (fun p =>
    mkFeedPost st userID p ((findUser st p.author_id).getD
      { id := p.author_id, username := "", email := "", bio := "", avatar_url := none }))

/-- `populateLikeData`: skip silently when there is no entity id, no
`liker_id` payload key, or the key is not a string; error when the liker's
id string does not parse, when the liker row is gone, or when the post row
(joined with its author) is gone; otherwise attach `actor` and `post`. -/
def populateLikeData (st : State) (n : Notif) : Except String Notif :=
  match n.entity_id with
  | none => .ok n
  | some eid =>
    match payloadGet n.payload "liker_id" with
    | some (.idv likerID) =>
      match findUser st likerID with
      | none => .error "no rows in result set"
      | some liker =>
        let n1 := { n with actor := some liker }
        match findPostWithAuthor st eid with
        | none => .error "no rows in result set"
        | some pa => .ok { n1 with post := some pa }
    | some (.strv _) => .error "invalid UUID"
    | _ => .ok n

/-- `populateCommentData`: like `populateLikeData` but keyed on
`commenter_id`; after attaching the commenter as `actor` it delegates to
`populateLikeData` (which, finding no `liker_id` key in a comment payload,
returns without touching the `post` field). -/
def populateCommentData (st : State) (n : Notif) : Except String Notif :=
  match n.entity_id with
  | none => .ok n
  | some _ =>
    match payloadGet n.payload "commenter_id" with
    | some (.idv commenterID) =>
      match findUser st commenterID with
      | none => .error "no rows in result set"
      | some commenter => populateLikeData st { n with actor := some commenter }
    | some (.strv _) => .error "invalid UUID"
    | _ => .ok n

/-- `populateFollowData`: attach the follower (the entity id) as `actor`;
error when that user row is gone. -/
def populateFollowData (st : State) (n : Notif) : Except String Notif :=
  match n.entity_id with
  | none => .ok n
  | some followerID =>
    match findUser st followerID with
    | none => .error "no rows in result set"
    | some follower => .ok { n with actor := some follower }

/-- `populateNewPostData`: attach the post (joined with its author) as
`post` and the author as `actor`; error when the joined row is gone. -/
def populateNewPostData (st : State) (n : Notif) : Except String Notif :=
  match n.entity_id with
  | none => .ok n
  | some eid =>
    match findPostWithAuthor st eid with
    | none => .error "failed to get post info"
    | some (p, author) => .ok { n with post := some (p, author), actor := some author }

/-- `populateNotificationData`: dispatch on the notification type. -/
def populateNotificationData (st : State) (n : Notif) : Except String Notif :=
  match n.ntype with
  | .like => populateLikeData st n
  | .comment => populateCommentData st n
  | .follow => populateFollowData st n
  | .new_post => populateNewPostData st n
  | .mention => .ok n

/-- The raw page of `GetUserNotifications` before enrichment:
`WHERE user_id = $1 ORDER BY created_at DESC LIMIT $2 OFFSET $3`. -/
def notifPage (st : State) (userID limit offset : Nat) : List Notif :=
  ((((st.notifications.filter (fun n => n.user_id = userID)).insertionSort
      notifLater).drop offset).take limit)

/-- The enrichment loop of `GetUserNotifications`: the first row whose
enrichment fails aborts the whole listing with an error. -/
def enrichAll (st : State) : List Notif → Except String (List Notif)
  | [] => .ok []
  | n :: rest =>
    match populateNotificationData st n with
    | .error e => .error ("failed to populate notification data: " ++ e)
    | .ok n' =>
      match enrichAll st rest with
      | .error e => .error e
      | .ok rest' => .ok (n' :: rest')

/-- `GetUserNotifications(userID, limit, offset)`: fetch the page, then
enrich every row; an enrichment failure fails the whole call. -/
def GetUserNotifications (st : State) (userID limit offset : Nat) :
    Except String (List Notif) :=
  enrichAll st (notifPage st userID limit offset)

/-- The `unread_only` branch of the HTTP handler
`NotificationsHandler.GetNotifications`: fetch the owner's 50 most recent
notifications via `GetUserNotifications(userID, 50, 0)`, keep the unread
ones, then apply `offset`/`limit` to that filtered slice; the other branch
passes `limit`/`offset` straight through. -/
def GetNotificationsHandler (st : State) (userID limit offset : Nat)
    (unreadOnly : Bool) : Except String (List Notif) :=
  if unreadOnly then
    match GetUserNotifications st userID 50 0 with
    | .error e => .error e
    | .ok allNotifications =>
      let unread := allNotifications.filter (fun n => n.read_at = none)
      if unread.length ≤ offset then .ok []
      else .ok ((unread.drop offset).take limit)
  else GetUserNotifications st userID limit offset

/-! ## Theorems -/

/-- If some row of a page fails enrichment, the whole `enrichAll` loop
returns an error. -/
lemma enrichAll_error_of_mem_error (st : State) :
    ∀ l : List Notif, (∃ n ∈ l, ∃ e, populateNotificationData st n = .error e) →
      ∃ e', enrichAll st l = .error e' := by
  intro l
  induction l with
  | nil => rintro ⟨n, hn, _⟩; exact absurd hn (List.not_mem_nil n)
  | cons n rest ih =>
    rintro ⟨m, hm, e, he⟩
    rcases List.mem_cons.mp hm with rfl | hm'
    · exact ⟨"failed to populate notification data: " ++ e, by simp [enrichAll, he]⟩
    · unfold enrichAll
      cases hp : populateNotificationData st n with
      | error e0 => exact ⟨_, rfl⟩
      | ok n' =>
        obtain ⟨e', he'⟩ := ih ⟨m, hm', e, he⟩
        exact ⟨e', by simp [he']⟩

/-- C2, counterexample state: user 5 exists, a `like` notification for
user 9 references post 77, but post 77 has been deleted. -/
def c2State : State :=
  { users := [{ id := 5, username := "liker", email := "l@x", bio := "", avatar_url := none }]
    follows := []
    posts := []
    likes := []
    comments := []
    notifications := [{ id := 1, user_id := 9, ntype := .like, entity_id := some 77,
                        payload := [("liker_id", .idv 5)], read_at := none, created_at := 10 }]
    now := 100
    nextNotifId := 2
    nextPostId := 1 }

/-- C2, counterexample: with one stored `like` notification whose referenced
post no longer exists, `GetUserNotifications` does not return the page with
that row's post field empty — it fails the whole listing with an error, so
no rows at all are returned. -/
theorem getUserNotifications_fails_on_deleted_post :
    GetUserNotifications c2State 9 20 0 =
      .error "failed to populate notification data: no rows in result set" := by
  rfl

/-- C2, amended: whenever any row of the fetched page fails enrichment
(for example because its referenced post or actor was deleted), the whole
`GetUserNotifications` listing fails with an error instead of returning the
remaining rows. -/
theorem getUserNotifications_error_propagation (st : State)
    (userID limit offset : Nat)
    (h : ∃ n ∈ notifPage st userID limit offset,
           ∃ e, populateNotificationData st n = .error e) :
    ∃ e', GetUserNotifications st userID limit offset = .error e' :=
  enrichAll_error_of_mem_error st _ h

/-- C2, amended-theorem witness at the concrete counterexample state. -/
theorem getUserNotifications_error_propagation_witness :
    ∃ e', GetUserNotifications c2State 9 20 0 = .error e' :=
  getUserNotifications_error_propagation c2State 9 20 0
    ⟨{ id := 1, user_id := 9, ntype := .like, entity_id := some 77,
       payload := [("liker_id", .idv 5)], read_at := none, created_at := 10 },
     by decide, "no rows in result set", by rfl⟩

/-- C4: when the actor is the post's own author, `NotifyLike` and
`NotifyComment` are no-ops that return success: the state (and hence the
notification store) is unchanged and no notification is created. -/
theorem no_self_notification (fails : CreateNotificationRequest → Bool)
    (st : State) (u postID : Nat) (commentText : String) (p : Post)
    (hp : findPost st postID = some p) (ha : u = p.author_id) :
    NotifyLike fails st u postID = .ok st ∧
    NotifyComment fails st u postID commentText = .ok st := by
  constructor
  · unfold NotifyLike
    rw [hp]
    simp [ha]
  · unfold NotifyComment
    rw [hp]
    simp [ha]

/-- C4, witness state: a single post 7 authored by user 3. -/
def c4State : State :=
  { users := []
    follows := []
    posts := [{ id := 7, author_id := 3, text := "hello", course_id := none,
                module_id := none, created_at := 1, updated_at := 1 }]
    likes := []
    comments := []
    notifications := []
    now := 2
    nextNotifId := 1
    nextPostId := 8 }

/-- C4, witness: author 3 of post 7 likes and comments on their own post. -/
theorem no_self_notification_witness :
    NotifyLike noFail c4State 3 7 = .ok c4State ∧
    NotifyComment noFail c4State 3 7 "nice" = .ok c4State :=
  no_self_notification noFail c4State 3 7 "nice"
    { id := 7, author_id := 3, text := "hello", course_id := none, module_id := none,
      created_at := 1, updated_at := 1 } (by decide) (by decide)

/-- C6: `FollowUser(u, u)` always fails with the self-follow error and
returns the state unchanged: no follow edge and no notification is created. -/
theorem followUser_self_follow (fails : CreateNotificationRequest → Bool)
    (st : State) (u : Nat) :
    FollowUser fails st u u = (st, .error "cannot follow yourself") := by
  simp [FollowUser]

/-- The notification rows the fan-out loop appends: one per follower whose
insert does not fail, with consecutive ids from `nid`. -/
def builtNewPostNotifs (fails : CreateNotificationRequest → Bool)
    (authorID postID : Nat) (postText : String) (now : Nat) :
    Nat → List Nat → List Notif
  | _, [] => []
  | nid, f :: rest =>
    if fails (newPostReq authorID postID postText f) then
      builtNewPostNotifs fails authorID postID postText now nid rest
    else
      { id := nid, user_id := f, ntype := .new_post, entity_id := some postID,
        payload := (newPostReq authorID postID postText f).payload,
        read_at := none, created_at := now }
        :: builtNewPostNotifs fails authorID postID postText now (nid + 1) rest

/-- Unfolding of the fan-out loop: it appends exactly the
`builtNewPostNotifs` rows and touches no other table. -/
lemma fanoutLoop_eq (fails : CreateNotificationRequest → Bool)
    (authorID postID : Nat) (postText : String) :
    ∀ (fs : List Nat) (st : State),
      (fanoutLoop fails authorID postID postText st fs).notifications
          = st.notifications
              ++ builtNewPostNotifs fails authorID postID postText st.now st.nextNotifId fs
        ∧ (fanoutLoop fails authorID postID postText st fs).follows = st.follows
        ∧ (fanoutLoop fails authorID postID postText st fs).posts = st.posts
        ∧ (fanoutLoop fails authorID postID postText st fs).likes = st.likes := by
  intro fs
  induction fs with
  | nil => intro st; simp [fanoutLoop, builtNewPostNotifs]
  | cons f rest ih =>
    intro st
    unfold fanoutLoop createNotificationF
    cases hf : fails (newPostReq authorID postID postText f) with
    | true =>
      simp only [hf, builtNewPostNotifs, if_pos]
      exact ih st
    | false =>
      simp only [hf, Bool.false_eq_true, if_neg, not_false_eq_true, builtNewPostNotifs,
        if_false]
      obtain ⟨h1, h2, h3, h4⟩ := ih (CreateNotification st (newPostReq authorID postID postText f)).1
      refine ⟨?_, h2, h3, h4⟩
      rw [h1]
      simp [CreateNotification, newPostReq, List.append_assoc]

/-- Every row built by the fan-out is a `new_post` notification for the
created post, carrying the author id, post id and post-text excerpt. -/
lemma builtNewPostNotifs_shape (fails : CreateNotificationRequest → Bool)
    (authorID postID : Nat) (postText : String) (now : Nat) :
    ∀ (fs : List Nat) (nid : Nat),
      ∀ n ∈ builtNewPostNotifs fails authorID postID postText now nid fs,
        n.ntype = .new_post ∧ n.entity_id = some postID ∧
        payloadGet n.payload "author_id" = some (.idv authorID) ∧
        payloadGet n.payload "post_id" = some (.idv postID) ∧
        payloadGet n.payload "post_text"
          = some (.strv (truncateText postText 100)) := by
  intro fs
  induction fs with
  | nil => intro nid n hn; simp [builtNewPostNotifs] at hn
  | cons f rest ih =>
    intro nid n hn
    unfold builtNewPostNotifs at hn
    by_cases hf : fails (newPostReq authorID postID postText f)
    · rw [if_pos hf] at hn
      exact ih nid n hn
    · rw [if_neg hf] at hn
      rcases List.mem_cons.mp hn with rfl | hn'
      · refine ⟨rfl, rfl, ?_, ?_, ?_⟩ <;> simp [payloadGet, newPostReq, List.find?]
      · exact ih (nid + 1) n hn'

/-- The recipients of the built fan-out rows are exactly the followers
whose insert did not fail, in order. -/
lemma builtNewPostNotifs_map_user_id (fails : CreateNotificationRequest → Bool)
    (authorID postID : Nat) (postText : String) (now : Nat) :
    ∀ (fs : List Nat) (nid : Nat),
      (builtNewPostNotifs fails authorID postID postText now nid fs).map (·.user_id)
        = fs.filter (fun f => !(fails (newPostReq authorID postID postText f))) := by
  intro fs
  induction fs with
  | nil => intro nid; simp [builtNewPostNotifs]
  | cons f rest ih =>
    intro nid
    unfold builtNewPostNotifs
    by_cases hf : fails (newPostReq authorID postID postText f)
    · rw [if_pos hf]
      simp [List.filter_cons, hf, ih nid]
    · rw [if_neg hf]
      simp only [List.map_cons, List.filter_cons]
      simp only [hf]
      simp [ih (nid + 1)]

/-- Per-recipient count of built fan-out rows under a healthy storage
layer: the same as the follower's multiplicity in the follower list. -/
lemma builtNewPostNotifs_count (authorID postID : Nat) (postText : String)
    (now f : Nat) :
    ∀ (fs : List Nat) (nid : Nat),
      ((builtNewPostNotifs noFail authorID postID postText now nid fs).filter
          (fun n => n.user_id = f)).length
        = (fs.filter (fun g => g = f)).length := by
  intro fs
  induction fs with
  | nil => intro nid; simp [builtNewPostNotifs]
  | cons g rest ih =>
    intro nid
    unfold builtNewPostNotifs
    simp only [noFail, Bool.false_eq_true, if_neg, not_false_eq_true, if_false]
    by_cases hg : g = f
    · subst hg
      simp [List.filter_cons, ih (nid + 1)]
    · simp [List.filter_cons, hg, ih (nid + 1)]

/-- Multiplicity of `f` in a duplicate-free list containing `f` is 1. -/
lemma filter_eq_length_one_of_nodup {l : List Nat} (hnd : l.Nodup) {f : Nat}
    (hf : f ∈ l) : (l.filter (fun g => g = f)).length = 1 := by
  induction l with
  | nil => exact absurd hf (List.not_mem_nil f)
  | cons a rest ih =>
    by_cases haf : a = f
    · subst haf
      have ha : a ∉ rest := (List.nodup_cons.mp hnd).1
      have hz : (rest.filter (fun g => g = a)).length = 0 := by
        rw [List.length_eq_zero, List.filter_eq_nil_iff]
        intro b hb
        simp only [decide_eq_true_eq]
        exact fun hba => ha (hba ▸ hb)
      simp [List.filter_cons, hz]
    · have hf' : f ∈ rest := by
        rcases List.mem_cons.mp hf with rfl | h
        · exact absurd rfl haf
        · exact h
      simp [List.filter_cons, haf, ih (List.nodup_cons.mp hnd).2 hf']

/-- Multiplicity of a non-member is 0. -/
lemma filter_eq_length_zero_of_not_mem {l : List Nat} {f : Nat}
    (hf : f ∉ l) : (l.filter (fun g => g = f)).length = 0 := by
  rw [List.length_eq_zero, List.filter_eq_nil_iff]
  intro b hb
  simp only [decide_eq_true_eq]
  exact fun hbf => hf (hbf ▸ hb)

/-- C1: under a healthy storage layer, `NotifyNewPost(u, postID, postText)`
succeeds and appends exactly one `new_post` notification per follower of
`u` — each carrying the author id, post id and post-text excerpt in its
payload — and zero notifications for `u` itself. -/
theorem notifyNewPost_fanout_complete (st : State) (u postID : Nat)
    (postText : String) (hnd : (followersOf st u).Nodup)
    (hself : u ∉ followersOf st u) :
    ∃ st', NotifyNewPost noFail st u postID postText = .ok st' ∧
      (st'.notifications.length
          = st.notifications.length + (followersOf st u).length) ∧
      (∀ f ∈ followersOf st u,
        ((st'.notifications.drop st.notifications.length).filter
            (fun n => n.user_id = f)).length = 1) ∧
      ((st'.notifications.drop st.notifications.length).filter
          (fun n => n.user_id = u)).length = 0 ∧
      (∀ n ∈ st'.notifications.drop st.notifications.length,
        n.ntype = .new_post ∧ n.entity_id = some postID ∧
        payloadGet n.payload "author_id" = some (.idv u) ∧
        payloadGet n.payload "post_id" = some (.idv postID) ∧
        payloadGet n.payload "post_text"
          = some (.strv (truncateText postText 100))) := by
  refine ⟨fanoutLoop noFail u postID postText st (followersOf st u), rfl, ?_⟩
  obtain ⟨h1, _, _, _⟩ := fanoutLoop_eq noFail u postID postText (followersOf st u) st
  have hdrop : (fanoutLoop noFail u postID postText st (followersOf st u)).notifications.drop
      st.notifications.length
      = builtNewPostNotifs noFail u postID postText st.now st.nextNotifId (followersOf st u) := by
    rw [h1]; exact List.drop_left _ _
  refine ⟨?_, ?_, ?_, ?_⟩
  · rw [h1, List.length_append]
    have := congrArg List.length
      (builtNewPostNotifs_map_user_id noFail u postID postText st.now (followersOf st u)
        st.nextNotifId)
    simp only [List.length_map] at this
    rw [this]
    simp [noFail]
  · intro f hf
    rw [hdrop, builtNewPostNotifs_count u postID postText st.now f (followersOf st u)
      st.nextNotifId]
    exact filter_eq_length_one_of_nodup hnd hf
  · rw [hdrop, builtNewPostNotifs_count u postID postText st.now u (followersOf st u)
      st.nextNotifId]
    exact filter_eq_length_zero_of_not_mem hself
  · rw [hdrop]
    exact builtNewPostNotifs_shape noFail u postID postText st.now (followersOf st u)
      st.nextNotifId

/-- C1, witness state: author 1 with followers 11, 12, 13. -/
def c1State : State :=
  { users := []
    follows := [(11, 1), (12, 1), (13, 1)]
    posts := []
    likes := []
    comments := []
    notifications := []
    now := 5
    nextNotifId := 1
    nextPostId := 1 }

/-- C1, witness: author 1 has followers {11, 12, 13}; the fan-out creates
exactly 3 `new_post` notifications, one per follower, and 0 for user 1. -/
theorem notifyNewPost_fanout_complete_witness :
    ∃ st', NotifyNewPost noFail c1State 1 2 "hi" = .ok st' ∧
      (st'.notifications.length
          = c1State.notifications.length + (followersOf c1State 1).length) ∧
      (∀ f ∈ followersOf c1State 1,
        ((st'.notifications.drop c1State.notifications.length).filter
            (fun n => n.user_id = f)).length = 1) ∧
      ((st'.notifications.drop c1State.notifications.length).filter
          (fun n => n.user_id = 1)).length = 0 ∧
      (∀ n ∈ st'.notifications.drop c1State.notifications.length,
        n.ntype = .new_post ∧ n.entity_id = some 2 ∧
        payloadGet n.payload "author_id" = some (.idv 1) ∧
        payloadGet n.payload "post_id" = some (.idv 2) ∧
        payloadGet n.payload "post_text" = some (.strv (truncateText "hi" 100))) :=
  notifyNewPost_fanout_complete c1State 1 2 "hi" (by decide) (by decide)

/-- C3: for an arbitrary pattern of per-insert storage failures,
`NotifyNewPost` still returns success, and it creates a notification for
exactly those followers whose insert did not fail — a failing insert is
skipped while the loop continues with every remaining follower; moreover,
the triggering `CreatePost` reports success to its caller. -/
theorem notifyNewPost_skips_failed_inserts
    (fails : CreateNotificationRequest → Bool) (st : State) (u postID : Nat)
    (postText text : String) :
    (∃ st', NotifyNewPost fails st u postID postText = .ok st' ∧
      (st'.notifications.drop st.notifications.length).map (·.user_id)
        = (followersOf st u).filter
            (fun f => !(fails (newPostReq u postID postText f)))) ∧
    (∃ post st'', CreatePost fails st u text = (st'', .ok post)) := by
  constructor
  · refine ⟨fanoutLoop fails u postID postText st (followersOf st u), rfl, ?_⟩
    obtain ⟨h1, _, _, _⟩ := fanoutLoop_eq fails u postID postText (followersOf st u) st
    rw [h1, List.drop_left]
    exact builtNewPostNotifs_map_user_id fails u postID postText st.now
      (followersOf st u) st.nextNotifId
  · unfold CreatePost NotifyNewPost
    exact ⟨_, _, rfl⟩

/-- C7: for distinct users with no existing edge, the first
`FollowUser(a, b)` succeeds, after it exactly one `(a, b)` edge exists, and
the second call fails with the already-following error leaving the state
unchanged; at the storage layer the `CreateFollow` insert-or-ignore query
is idempotent, so a duplicate-detected insert degrades to "no new edge"
rather than failing. -/
theorem follow_idempotence (st : State) (a b : Nat) (hne : a ≠ b)
    (h0 : countFollows st a b = 0) :
    ∃ st1, FollowUser noFail st a b = (st1, .ok ()) ∧
      countFollows st1 a b = 1 ∧
      FollowUser noFail st1 a b = (st1, .error "already following this user") ∧
      ∀ fs : List (Nat × Nat),
        createFollowQuery (createFollowQuery fs a b) a b
          = createFollowQuery fs a b := by
  have h0' : (st.follows.filter (fun e => e.1 = a ∧ e.2 = b)).length = 0 := h0
  refine ⟨(CreateNotification { st with follows := st.follows ++ [(a, b)] }
      { user_id := b, ntype := .follow, entity_id := some a,
        payload := [("follower_id", .idv a)] }).1, ?_, ?_, ?_, ?_⟩
  · unfold FollowUser
    rw [if_neg hne, if_neg (by simp [h0])]
    rfl
  · show (List.filter _ (st.follows ++ [(a, b)])).length = 1
    rw [List.filter_append, List.length_append, h0']
    simp
  · have hc : countFollows (CreateNotification { st with follows := st.follows ++ [(a, b)] }
        { user_id := b, ntype := .follow, entity_id := some a,
          payload := [("follower_id", .idv a)] }).1 a b = 1 := by
      show (List.filter _ (st.follows ++ [(a, b)])).length = 1
      rw [List.filter_append, List.length_append, h0']
      simp
    unfold FollowUser
    rw [if_neg hne, if_pos (by rw [hc]; omega)]
  · intro fs
    unfold createFollowQuery
    by_cases hmem : (a, b) ∈ fs
    · rw [if_pos hmem, if_pos hmem]
    · rw [if_neg hmem, if_pos (by simp)]

/-- C7, witness state: empty follow store. -/
def c7State : State :=
  { users := [], follows := [], posts := [], likes := [], comments := []
    notifications := [], now := 3, nextNotifId := 1, nextPostId := 1 }

/-- C7, witness: users 1 and 2 with no prior edge. -/
theorem follow_idempotence_witness :
    ∃ st1, FollowUser noFail c7State 1 2 = (st1, .ok ()) ∧
      countFollows st1 1 2 = 1 ∧
      FollowUser noFail st1 1 2 = (st1, .error "already following this user") ∧
      ∀ fs : List (Nat × Nat),
        createFollowQuery (createFollowQuery fs 1 2) 1 2
          = createFollowQuery fs 1 2 :=
  follow_idempotence c7State 1 2 (by decide) (by decide)

/-- C8: `MarkAsRead(notificationID, ownerID)` fails with the
not-found-or-already-read error — leaving the state unchanged — exactly
when zero stored notifications match `(id, owner, read_at IS NULL)`; when a
matching row exists, it succeeds and the store is the pointwise update that
sets `read_at` on matching rows and leaves every other row unchanged. -/
theorem markAsRead_spec (st : State) (notificationID userID : Nat) :
    ((st.notifications.filter (fun n =>
        decide (n.id = notificationID ∧ n.user_id = userID ∧ n.read_at = none))).length = 0 →
      MarkAsRead st notificationID userID
        = (st, .error "notification not found or already read")) ∧
    ((st.notifications.filter (fun n =>
        decide (n.id = notificationID ∧ n.user_id = userID ∧ n.read_at = none))).length ≠ 0 →
      MarkAsRead st notificationID userID
        = ({ st with notifications := st.notifications.map (fun n =>
              if n.id = notificationID ∧ n.user_id = userID ∧ n.read_at = none
              then { n with read_at := some st.now } else n) }, .ok ())) := by
  constructor
  · intro h
    unfold MarkAsRead
    rw [if_pos h]
  · intro h
    unfold MarkAsRead
    rw [if_neg h]

/-- C8, witness state: one unread notification (id 4) owned by user 2 and
one read notification (id 5) owned by user 2. -/
def c8State : State :=
  { users := [], follows := [], posts := [], likes := [], comments := []
    notifications :=
      [{ id := 4, user_id := 2, ntype := .follow, entity_id := some 1,
         payload := [("follower_id", .idv 1)], read_at := none, created_at := 1 },
       { id := 5, user_id := 2, ntype := .follow, entity_id := some 3,
         payload := [("follower_id", .idv 3)], read_at := some 2, created_at := 2 }]
    now := 9, nextNotifId := 6, nextPostId := 1 }

/-- C8, witness: marking unread notification 4 succeeds and sets its
`read_at` while notification 5 is untouched; marking someone else's
notification (owner 3) fails with the not-found-or-already-read error. -/
theorem markAsRead_spec_witness :
    MarkAsRead c8State 4 2
      = ({ c8State with notifications := c8State.notifications.map (fun n =>
            if n.id = 4 ∧ n.user_id = 2 ∧ n.read_at = none
            then { n with read_at := some c8State.now } else n) }, .ok ()) ∧
    MarkAsRead c8State 4 3
      = (c8State, .error "notification not found or already read") :=
  ⟨(markAsRead_spec c8State 4 2).2 (by decide),
   (markAsRead_spec c8State 4 3).1 (by decide)⟩

/-- When the liker is not the author and the storage layer is healthy,
`NotifyLike` creates exactly the `like` notification for the author. -/
lemma notifyLike_creates (st : State) (u pid : Nat) (p : Post)
    (hp : findPost st pid = some p) (hne : u ≠ p.author_id) :
    NotifyLike noFail st u pid
      = .ok (CreateNotification st
          { user_id := p.author_id, ntype := .like, entity_id := some pid,
            payload := [("liker_id", .idv u), ("post_id", .idv pid),
                        ("post_text", .strv (truncateText p.text 100))] }).1 := by
  simp [NotifyLike, hp, hne, createNotificationF, noFail]

/-- C9: with the like row absent initially and the liker distinct from the
author, two successive `LikePost(u, pid)` calls both succeed, the like
store gains exactly the one `(u, pid)` row (the second insert is ignored),
but two `like` notifications for the author are appended — the
notification trigger runs unconditionally on every call. -/
theorem likePost_duplicate_notifications (st : State) (u pid : Nat) (p : Post)
    (hp : findPost st pid = some p) (hne : u ≠ p.author_id)
    (hnl : (u, pid) ∉ st.likes) :
    ∃ st1 st2,
      LikePost noFail st u pid = (st1, .ok ()) ∧
      LikePost noFail st1 u pid = (st2, .ok ()) ∧
      st2.likes = st.likes ++ [(u, pid)] ∧
      st2.notifications.length = st.notifications.length + 2 ∧
      ∀ n ∈ st2.notifications.drop st.notifications.length,
        n.ntype = .like ∧ n.user_id = p.author_id ∧ n.entity_id = some pid ∧
        payloadGet n.payload "liker_id" = some (.idv u) := by
  have h1 : LikePost noFail st u pid
      = ((CreateNotification { st with likes := st.likes ++ [(u, pid)] }
          { user_id := p.author_id, ntype := .like, entity_id := some pid,
            payload := [("liker_id", .idv u), ("post_id", .idv pid),
                        ("post_text", .strv (truncateText p.text 100))] }).1, .ok ()) := by
    have hNL := notifyLike_creates { st with likes := st.likes ++ [(u, pid)] } u pid p hp hne
    unfold LikePost
    rw [if_neg hnl]
    simp only [hNL]
  have hmem : (u, pid) ∈ (CreateNotification { st with likes := st.likes ++ [(u, pid)] }
      { user_id := p.author_id, ntype := .like, entity_id := some pid,
        payload := [("liker_id", .idv u), ("post_id", .idv pid),
                    ("post_text", .strv (truncateText p.text 100))] }).1.likes := by
    show (u, pid) ∈ st.likes ++ [(u, pid)]
    simp
  have h2 : LikePost noFail (CreateNotification { st with likes := st.likes ++ [(u, pid)] }
      { user_id := p.author_id, ntype := .like, entity_id := some pid,
        payload := [("liker_id", .idv u), ("post_id", .idv pid),
                    ("post_text", .strv (truncateText p.text 100))] }).1 u pid
      = ((CreateNotification (CreateNotification { st with likes := st.likes ++ [(u, pid)] }
          { user_id := p.author_id, ntype := .like, entity_id := some pid,
            payload := [("liker_id", .idv u), ("post_id", .idv pid),
                        ("post_text", .strv (truncateText p.text 100))] }).1
          { user_id := p.author_id, ntype := .like, entity_id := some pid,
            payload := [("liker_id", .idv u), ("post_id", .idv pid),
                        ("post_text", .strv (truncateText p.text 100))] }).1, .ok ()) := by
    have hNL := notifyLike_creates (CreateNotification { st with likes := st.likes ++ [(u, pid)] }
      { user_id := p.author_id, ntype := .like, entity_id := some pid,
        payload := [("liker_id", .idv u), ("post_id", .idv pid),
                    ("post_text", .strv (truncateText p.text 100))] }).1 u pid p hp hne
    unfold LikePost
    rw [if_pos hmem]
    simp only [hNL]
  refine ⟨_, _, h1, h2, rfl, ?_, ?_⟩
  · show (st.notifications ++ [_] ++ [_]).length = st.notifications.length + 2
    simp
  · intro n hn
    rw [show (CreateNotification (CreateNotification { st with likes := st.likes ++ [(u, pid)] }
        { user_id := p.author_id, ntype := .like, entity_id := some pid,
          payload := [("liker_id", .idv u), ("post_id", .idv pid),
                      ("post_text", .strv (truncateText p.text 100))] }).1
        { user_id := p.author_id, ntype := .like, entity_id := some pid,
          payload := [("liker_id", .idv u), ("post_id", .idv pid),
                      ("post_text", .strv (truncateText p.text 100))] }).1.notifications
        = st.notifications ++
            ([(CreateNotification { st with likes := st.likes ++ [(u, pid)] }
                { user_id := p.author_id, ntype := .like, entity_id := some pid,
                  payload := [("liker_id", .idv u), ("post_id", .idv pid),
                              ("post_text", .strv (truncateText p.text 100))] }).2]
              ++ [(CreateNotification (CreateNotification { st with likes := st.likes ++ [(u, pid)] }
                { user_id := p.author_id, ntype := .like, entity_id := some pid,
                  payload := [("liker_id", .idv u), ("post_id", .idv pid),
                              ("post_text", .strv (truncateText p.text 100))] }).1
                { user_id := p.author_id, ntype := .like, entity_id := some pid,
                  payload := [("liker_id", .idv u), ("post_id", .idv pid),
                              ("post_text", .strv (truncateText p.text 100))] }).2])
        from by simp [CreateNotification], List.drop_left] at hn
    rcases List.mem_append.mp hn with h | h <;>
      rcases List.mem_singleton.mp h with rfl <;>
      exact ⟨rfl, rfl, rfl, by simp [payloadGet, List.find?, CreateNotification]⟩

/-- C9, witness state: post 7 authored by user 3, no likes yet. -/
def c9State : State :=
  { users := []
    follows := []
    posts := [{ id := 7, author_id := 3, text := "hello", course_id := none,
                module_id := none, created_at := 1, updated_at := 1 }]
    likes := []
    comments := []
    notifications := []
    now := 2
    nextNotifId := 1
    nextPostId := 8 }

/-- C9, witness: user 2 likes post 7 (authored by 3) twice: one like row,
two `like` notifications. -/
theorem likePost_duplicate_notifications_witness :
    ∃ st1 st2,
      LikePost noFail c9State 2 7 = (st1, .ok ()) ∧
      LikePost noFail st1 2 7 = (st2, .ok ()) ∧
      st2.likes = c9State.likes ++ [(2, 7)] ∧
      st2.notifications.length = c9State.notifications.length + 2 ∧
      ∀ n ∈ st2.notifications.drop c9State.notifications.length,
        n.ntype = .like ∧ n.user_id = 3 ∧ n.entity_id = some 7 ∧
        payloadGet n.payload "liker_id" = some (.idv 2) :=
  likePost_duplicate_notifications c9State 2 7
    { id := 7, author_id := 3, text := "hello", course_id := none,
      module_id := none, created_at := 1, updated_at := 1 }
    (by rfl) (by decide) (by decide)

/-- C5: every post returned by `GetFeed(userID, limit, offset)` is authored
by `userID` or by a user that `userID` follows; each returned row is
annotated with the distinct-liker count, the comment count, and whether
`userID` has liked that specific post; and the page is ordered by post
creation time descending. -/
theorem getFeed_spec (st : State) (userID limit offset : Nat) :
    (∀ fp ∈ GetFeed st userID limit offset,
      (fp.author_id = userID ∨ (userID, fp.author_id) ∈ st.follows) ∧
      fp.like_count = distinctLikerCount st fp.id ∧
      fp.comment_count = distinctCommentCount st fp.id ∧
      (fp.is_liked = true ↔ (userID, fp.id) ∈ st.likes)) ∧
    (GetFeed st userID limit offset).Pairwise
      (fun a b => b.created_at ≤ a.created_at) := by
  constructor
  · intro fp hfp
    unfold GetFeed at hfp
    obtain ⟨q, hq, rfl⟩ := List.mem_map.mp hfp
    have hq1 : q ∈ (st.posts.filter (fun p =>
        decide (isVisibleAuthor st userID p.author_id)
          && (findUser st p.author_id).isSome)).insertionSort postLater :=
      List.mem_of_mem_drop (List.mem_of_mem_take hq)
    have hq2 := (List.perm_insertionSort postLater _).mem_iff.mp hq1
    have hq3 := List.mem_filter.mp hq2
    have hvis : isVisibleAuthor st userID q.author_id := by
      have := (Bool.and_eq_true _ _).mp hq3.2
      exact of_decide_eq_true this.1
    refine ⟨hvis, rfl, rfl, ?_⟩
    show decide ((userID, q.id) ∈ st.likes) = true ↔ (userID, q.id) ∈ st.likes
    exact decide_eq_true_iff
  · unfold GetFeed
    refine List.Pairwise.map _ (fun a b hab => hab) ?_
    have hs : ((st.posts.filter (fun p =>
        decide (isVisibleAuthor st userID p.author_id)
          && (findUser st p.author_id).isSome)).insertionSort postLater).Pairwise
        postLater := List.sorted_insertionSort postLater _
    exact (hs.sublist (List.drop_sublist _ _)).sublist (List.take_sublist _ _)

/-- C5, witness state: viewer 1 follows 2; posts by 1, 2 and 3 with one
like and one comment on post 20. -/
def c5State : State :=
  { users := [{ id := 1, username := "v", email := "v@x", bio := "", avatar_url := none },
              { id := 2, username := "a", email := "a@x", bio := "", avatar_url := none },
              { id := 3, username := "c", email := "c@x", bio := "", avatar_url := none }]
    follows := [(1, 2)]
    posts := [{ id := 10, author_id := 1, text := "mine", course_id := none,
                module_id := none, created_at := 1, updated_at := 1 },
              { id := 20, author_id := 2, text := "followee", course_id := none,
                module_id := none, created_at := 2, updated_at := 2 },
              { id := 30, author_id := 3, text := "stranger", course_id := none,
                module_id := none, created_at := 3, updated_at := 3 }]
    likes := [(1, 20)]
    comments := [{ id := 100, post_id := 20 }]
    notifications := []
    now := 4
    nextNotifId := 1
    nextPostId := 31 }

/-- C5, witness: the feed of viewer 1 contains the followee's post 20 with
its annotations and respects the membership and ordering properties. -/
theorem getFeed_spec_witness :
    ((mkFeedPost c5State 1
        { id := 20, author_id := 2, text := "followee", course_id := none,
          module_id := none, created_at := 2, updated_at := 2 }
        { id := 2, username := "a", email := "a@x", bio := "", avatar_url := none }).author_id = 1 ∨
      (1, (mkFeedPost c5State 1
        { id := 20, author_id := 2, text := "followee", course_id := none,
          module_id := none, created_at := 2, updated_at := 2 }
        { id := 2, username := "a", email := "a@x", bio := "", avatar_url := none }).author_id) ∈ c5State.follows) ∧
    (mkFeedPost c5State 1
        { id := 20, author_id := 2, text := "followee", course_id := none,
          module_id := none, created_at := 2, updated_at := 2 }
        { id := 2, username := "a", email := "a@x", bio := "", avatar_url := none }).like_count
      = distinctLikerCount c5State (mkFeedPost c5State 1
        { id := 20, author_id := 2, text := "followee", course_id := none,
          module_id := none, created_at := 2, updated_at := 2 }
        { id := 2, username := "a", email := "a@x", bio := "", avatar_url := none }).id ∧
    (mkFeedPost c5State 1
        { id := 20, author_id := 2, text := "followee", course_id := none,
          module_id := none, created_at := 2, updated_at := 2 }
        { id := 2, username := "a", email := "a@x", bio := "", avatar_url := none }).comment_count
      = distinctCommentCount c5State (mkFeedPost c5State 1
        { id := 20, author_id := 2, text := "followee", course_id := none,
          module_id := none, created_at := 2, updated_at := 2 }
        { id := 2, username := "a", email := "a@x", bio := "", avatar_url := none }).id ∧
    ((mkFeedPost c5State 1
        { id := 20, author_id := 2, text := "followee", course_id := none,
          module_id := none, created_at := 2, updated_at := 2 }
        { id := 2, username := "a", email := "a@x", bio := "", avatar_url := none }).is_liked = true ↔
      (1, (mkFeedPost c5State 1
        { id := 20, author_id := 2, text := "followee", course_id := none,
          module_id := none, created_at := 2, updated_at := 2 }
        { id := 2, username := "a", email := "a@x", bio := "", avatar_url := none }).id) ∈ c5State.likes) :=
  (getFeed_spec c5State 1 10 0).1
    (mkFeedPost c5State 1
      { id := 20, author_id := 2, text := "followee", course_id := none,
        module_id := none, created_at := 2, updated_at := 2 }
      { id := 2, username := "a", email := "a@x", bio := "", avatar_url := none })
    (by decide)

/-- Enrichment never alters the persisted columns used for identity and
read-state. -/
lemma populateLikeData_preserves (st : State) (n n' : Notif)
    (h : populateLikeData st n = .ok n') :
    n'.id = n.id ∧ n'.user_id = n.user_id ∧ n'.read_at = n.read_at := by
  unfold populateLikeData at h
  repeat' split at h
  all_goals simp_all
  all_goals subst h; exact ⟨rfl, rfl, rfl⟩

/-- Enrichment never alters the persisted columns (comment case). -/
lemma populateCommentData_preserves (st : State) (n n' : Notif)
    (h : populateCommentData st n = .ok n') :
    n'.id = n.id ∧ n'.user_id = n.user_id ∧ n'.read_at = n.read_at := by
  unfold populateCommentData at h
  split at h
  · cases h; exact ⟨rfl, rfl, rfl⟩
  · split at h
    · split at h
      · simp at h
      · have h3 := populateLikeData_preserves st _ n' h
        exact h3
    · simp at h
    · cases h; exact ⟨rfl, rfl, rfl⟩

/-- Enrichment never alters the persisted columns (follow case). -/
lemma populateFollowData_preserves (st : State) (n n' : Notif)
    (h : populateFollowData st n = .ok n') :
    n'.id = n.id ∧ n'.user_id = n.user_id ∧ n'.read_at = n.read_at := by
  unfold populateFollowData at h
  repeat' split at h
  all_goals simp_all
  all_goals subst h; exact ⟨rfl, rfl, rfl⟩

/-- Enrichment never alters the persisted columns (new-post case). -/
lemma populateNewPostData_preserves (st : State) (n n' : Notif)
    (h : populateNewPostData st n = .ok n') :
    n'.id = n.id ∧ n'.user_id = n.user_id ∧ n'.read_at = n.read_at := by
  unfold populateNewPostData at h
  repeat' split at h
  all_goals simp_all
  all_goals subst h; exact ⟨rfl, rfl, rfl⟩

/-- Enrichment never alters the persisted columns (all types). -/
lemma populateNotificationData_preserves (st : State) (n n' : Notif)
    (h : populateNotificationData st n = .ok n') :
    n'.id = n.id ∧ n'.user_id = n.user_id ∧ n'.read_at = n.read_at := by
  unfold populateNotificationData at h
  split at h
  · exact populateLikeData_preserves st n n' h
  · exact populateCommentData_preserves st n n' h
  · exact populateFollowData_preserves st n n' h
  · exact populateNewPostData_preserves st n n' h
  · cases h; exact ⟨rfl, rfl, rfl⟩

/-- Every row of a successful enrichment comes from a row of the fetched
page. -/
lemma enrichAll_ok_mem (st : State) :
    ∀ (l l' : List Notif), enrichAll st l = .ok l' →
      ∀ m ∈ l', ∃ n ∈ l, populateNotificationData st n = .ok m := by
  intro l
  induction l with
  | nil =>
    intro l' h m hm
    unfold enrichAll at h
    cases h
    exact absurd hm (List.not_mem_nil m)
  | cons n rest ih =>
    intro l' h m hm
    unfold enrichAll at h
    cases hp : populateNotificationData st n with
    | error e => rw [hp] at h; cases h
    | ok n0 =>
      rw [hp] at h
      cases hr : enrichAll st rest with
      | error e => rw [hr] at h; cases h
      | ok rest' =>
        rw [hr] at h
        cases h
        rcases List.mem_cons.mp hm with rfl | hm'
        · exact ⟨n, List.mem_cons_self n rest, hp⟩
        · obtain ⟨n1, hn1, hpn1⟩ := ih rest' hr m hm'
          exact ⟨n1, List.mem_cons_of_mem n hn1, hpn1⟩

/-- C10: the `unread_only` listing only ever returns rows drawn from the
owner's 50 most recent notifications (`GetUserNotifications(userID, 50, 0)`),
filtered to unread in memory with `limit`/`offset` applied afterwards — so
for any `limit` and `offset`, every returned row is unread and its id comes
from that top-50 page; an unread notification outside the 50 most recent is
never returned. -/
theorem unreadOnly_limited_to_recent_50 (st : State)
    (userID limit offset : Nat) (l : List Notif)
    (h : GetNotificationsHandler st userID limit offset true = .ok l) :
    ∀ m ∈ l, m.read_at = none ∧ m.id ∈ (notifPage st userID 50 0).map (·.id) := by
  intro m hm
  unfold GetNotificationsHandler at h
  rw [if_pos rfl] at h
  split at h
  · cases h
  next allNotifications heq =>
    dsimp only at h
    split at h
    · cases h
      exact absurd hm (List.not_mem_nil m)
    · cases h
      have hml : m ∈ allNotifications.filter (fun n => n.read_at = none) :=
        List.mem_of_mem_drop (List.mem_of_mem_take hm)
      have hmem := List.mem_filter.mp hml
      obtain ⟨n, hn, hpop⟩ := enrichAll_ok_mem st (notifPage st userID 50 0)
        allNotifications heq m hmem.1
      obtain ⟨hid, _, _⟩ := populateNotificationData_preserves st n m hpop
      exact ⟨of_decide_eq_true hmem.2, List.mem_map.mpr ⟨n, hn, hid.symm⟩⟩

/-- C10, witness state: one unread `mention` notification (id 8) for user 9. -/
def c10State : State :=
  { users := [], follows := [], posts := [], likes := [], comments := []
    notifications := [{ id := 8, user_id := 9, ntype := .mention, entity_id := none,
                        payload := [], read_at := none, created_at := 3 }]
    now := 4, nextNotifId := 9, nextPostId := 1 }

/-- C10, witness: the single returned unread row is unread and drawn from
the top-50 page. -/
theorem unreadOnly_limited_to_recent_50_witness :
    ({ id := 8, user_id := 9, ntype := .mention, entity_id := none,
       payload := [], read_at := none, created_at := 3 } : Notif).read_at = none ∧
    ({ id := 8, user_id := 9, ntype := .mention, entity_id := none,
       payload := [], read_at := none, created_at := 3 } : Notif).id
      ∈ (notifPage c10State 9 50 0).map (·.id) :=
  unreadOnly_limited_to_recent_50 c10State 9 20 0
    [{ id := 8, user_id := 9, ntype := .mention, entity_id := none,
       payload := [], read_at := none, created_at := 3 }] (by rfl)
    { id := 8, user_id := 9, ntype := .mention, entity_id := none,
      payload := [], read_at := none, created_at := 3 } (by decide)

end Bailanysta
